import Mathlib

/-!
Verification development for the interactive terminal-session feature
(`features/ssh/__init__.py` of the PiCord repository).

The Python code is shallowly embedded: every definition below is translated
from the source file (line numbers cited in doc comments).  Host-environment
interactions (environment variables, filesystem queries, the Discord
transport, `subprocess.run`) are modelled by an explicit environment record
`Env` whose fields are oracles for the results the host would produce.
Python strings are modelled as Lean `String`s over their character lists;
the Python string/path library functions used by the source are modelled
character-exactly for ASCII input (the source only ever compares against
ASCII literals such as `"exit"`, `"cd "`, `"~"` and `"/"`).
-/

/-- ASCII whitespace as recognized by Python's `str.split()` / `str.strip()`
(space, tab, newline, carriage return, vertical tab, form feed). -/
def isPySpace (c : Char) : Bool :=
  c == ' ' || c == '\t' || c == '\n' || c == '\r' || c == '\x0b' || c == '\x0c'

/-- Python `str.strip()` with no argument: remove leading and trailing
whitespace. -/
def pyStrip (s : String) : String :=
  String.mk (((s.data.dropWhile isPySpace).reverse.dropWhile isPySpace).reverse)

/-- Worker for `pySplit`: split a character list on runs of whitespace,
dropping empty fields, exactly like Python `str.split()` with no argument.
Structural recursion on a fuel counter (always called with fuel at least
the list length, so the fuel-exhaustion arm is unreachable) keeps the
definition kernel-reducible. -/
def pySplitFuel : Nat → List Char → List String
  | _, [] => []
  | 0, _ :: _ => []
  | fuel + 1, c :: cs =>
    if isPySpace c then pySplitFuel fuel cs
    else
      String.mk (c :: cs.takeWhile (fun x => !(isPySpace x))) ::
        pySplitFuel fuel (cs.dropWhile (fun x => !(isPySpace x)))

/-- Python `str.split()` with no argument. -/
def pySplit (s : String) : List String :=
  pySplitFuel s.data.length s.data

/-- Python `str.split(maxsplit=1)` with no separator argument: at most one
split; the remainder after the first separator run is kept verbatim. -/
def pySplitMax1 (s : String) : List String :=
  let l := s.data.dropWhile isPySpace
  if l.isEmpty then []
  else
    let tok := l.takeWhile (fun c => !(isPySpace c))
    let rest := (l.dropWhile (fun c => !(isPySpace c))).dropWhile isPySpace
    if rest.isEmpty then [String.mk tok] else [String.mk tok, String.mk rest]

/-- Python `str.lower()` (ASCII case mapping, which is all the source
compares against). -/
def pyLower (s : String) : String :=
  String.mk (s.data.map Char.toLower)

/-- Python `str.startswith(pre)`. -/
def pyStartswith (s pre : String) : Bool :=
  pre.data.isPrefixOf s.data

/-- Python `str.endswith(suf)`. -/
def pyEndswith (s suf : String) : Bool :=
  suf.data.isSuffixOf s.data

/-- Python `str.rstrip('/')`. -/
def rstripSlash (s : String) : String :=
  String.mk ((s.data.reverse.dropWhile (fun c => c == '/')).reverse)

/-- Python `posixpath.expanduser` for arguments beginning with `~` (the only way
the source calls it): `~` and `~/rest` expand against the host `HOME`
(modelled by the `home` argument, with CPython's `rstrip('/')` and the
empty-result-means-root rule); `~username` forms are modelled as unknown
users, which CPython returns unchanged. -/
def pyExpanduser (home : String) (p : String) : String :=
  let name := String.mk ((p.data.drop 1).takeWhile (fun c => c != '/'))
  let rest := String.mk (p.data.drop (1 + name.length))
  if name.isEmpty then
    let res := rstripSlash home ++ rest
    if res.isEmpty then "/" else res
  else p

/-- Python `posixpath.isabs`. -/
def pyIsAbs (p : String) : Bool :=
  pyStartswith p "/"

/-- Python `posixpath.join` for two arguments. -/
def pyJoin (a b : String) : String :=
  if pyStartswith b "/" then b
  else if a.isEmpty || pyEndswith a "/" then a ++ b
  else a ++ "/" ++ b

/-- Python `str.split('/')` (a single-character separator, keeping empty
fields), written as a structural right fold over the characters. -/
def splitSlash : List Char → List String
  | [] => [""]
  | c :: cs =>
    let r := splitSlash cs
    if c == '/' then "" :: r
    else
      match r with
      | [] => [String.mk [c]]
      | t :: ts => String.mk (c :: t.data) :: ts

/-- Python `posixpath.normpath`: collapse separators and `.` components and resolve
`..` lexically, following CPython's algorithm including the special
two-leading-slash case. -/
def pyNormpath (p : String) : String :=
  if p.isEmpty then "." else
  let initial_slashes : Nat :=
    if pyStartswith p "//" && !(pyStartswith p "///") then 2
    else if pyStartswith p "/" then 1 else 0
  let comps := (splitSlash p.data).filter (fun c => !(c == "") && !(c == "."))
  let new_comps := comps.foldl (fun acc comp =>
    if !(comp == "..") || (initial_slashes == 0 && acc.isEmpty)
        || acc.getLast? == some ".." then
      acc ++ [comp]
    else if !acc.isEmpty then acc.dropLast
    else acc) ([] : List String)
  let joined := String.intercalate "/" new_comps
  let path := String.mk (List.replicate initial_slashes '/') ++ joined
  if path.isEmpty then "." else path

/-- Python `posixpath.abspath`: join against the process working directory when the
path is relative, then normalize. -/
def pyAbspath (processCwd : String) (p : String) : String :=
  pyNormpath (if pyIsAbs p then p else pyJoin processCwd p)

/-- Worker modelling `re.sub(r'\x1b\[[0-9;]*m', '', output)` from
`execute_command` (source line 176): delete every complete
ESC `[` digits/semicolons `m` sequence, scanning left to right. -/
def stripAnsiFuel : Nat → List Char → List Char
  | _, [] => []
  | 0, l => l
  | fuel + 1, '\x1b' :: '[' :: rest =>
    match rest.dropWhile (fun c => c.isDigit || c == ';') with
    | 'm' :: tail => stripAnsiFuel fuel tail
    | _ => '\x1b' :: stripAnsiFuel fuel ('[' :: rest)
  | fuel + 1, c :: cs => c :: stripAnsiFuel fuel cs

/-- Python `re.sub(r'\x1b\[[0-9;]*m', '', output)` on a character list.  The fuel
(one unit per scanned position, starting at the list length) makes the
recursion structural; each step consumes at least one character, so the
fuel never runs out. -/
def stripAnsiAux (l : List Char) : List Char :=
  stripAnsiFuel l.length l

/-! ## Data model

The RunFeature instance state (source lines 21-23) and the host/transport
environment. -/

/-- Exceptions the transport can raise, as the source distinguishes them:
`notFound` models `discord.NotFound`, `httpError` models every other
`discord.HTTPException`, and `otherError` models any exception outside the
`discord.HTTPException` family (e.g. a connection-level or timeout error
from the underlying HTTP client), which only a bare `except` or
`except Exception` catches. -/
inductive PyErr where
  | notFound
  | httpError
  | otherError
deriving DecidableEq, Repr

/-- Whether an exception is caught by `except (discord.NotFound,
discord.HTTPException)` or by `except discord.HTTPException`
(`discord.NotFound` is a subclass of `discord.HTTPException`, so both
clauses catch the same set). -/
def isDiscordErr : PyErr → Bool
  | .notFound => true
  | .httpError => true
  | .otherError => false

/-- Outcome of `subprocess.run(command, shell=True, capture_output=True,
text=True, cwd=..., timeout=...)` (source lines 157-164): normal
completion with a return code and captured streams, `subprocess.TimeoutExpired`,
or any other spawn-level exception. -/
inductive SpawnResult where
  | completed (returncode : Int) (stdout stderr : String)
  | timedOut
  | failed (msg : String)
deriving DecidableEq, Repr

/-- Host and transport environment consumed by the feature: environment
variables and process state read at session start, filesystem queries,
the process-spawn oracle, and the results of the Discord send/edit/delete
calls the feature makes. -/
structure Env where
  /-- Value of `os.path.expanduser("~")`, i.e. the base, i.e. the `HOME` environment variable. -/
  home : String
  /-- Value of `os.getcwd()`. -/
  getcwd : String
  /-- Value of `os.environ.get('USER', os.environ.get('USERNAME', 'user'))`. -/
  userName : String
  /-- Value of `os.environ.get('HOSTNAME', 'localhost')`. -/
  hostName : String
  /-- Value of `asyncio.get_event_loop().time()` at session start. -/
  now : Nat
  /-- Oracle for `os.path.isdir` on the host filesystem. -/
  isdir : String → Bool
  /-- Oracle for the `subprocess.run` outcome for a given command line and working directory. -/
  spawn : String → String → SpawnResult
  /-- Result of `message.reply(...)` in `start_terminal_session` (line 91):
  the new message id on success, or the exception raised. -/
  reply_result : Except PyErr Nat
  /-- Result of the `message.channel.send("❌ Failed to start ...")` call in
  `start_terminal_session`'s handler (line 106). -/
  notice_send_result : Except PyErr Nat
  /-- Result of `session['terminal_msg'].edit(content=...)` in
  `handle_terminal_input` (line 278): `none` on success. -/
  edit_result : Option PyErr
  /-- Result of the fallback `message.channel.send(terminal_content)`
  (line 282): the new message id on success, or the exception raised. -/
  fallback_send : Except PyErr Nat
  /-- Result of `message.delete()` (line 295): `none` on success. -/
  delete_result : Option PyErr

/-- One terminal session, the dict stored in `self.terminal_sessions`
(source lines 81-87, 99-100).  `message_id` is `none` until the
introductory reply succeeds; it models both the `'message_id'` and the
`'terminal_msg'` keys, which are always set together. -/
structure Session where
  username : String
  hostname : String
  cwd : String
  channel_id : Nat
  created_at : Nat
  message_id : Option Nat
deriving DecidableEq, Repr

/-- An inbound Discord message as the feature reads it: `message.id`,
`message.author.id`, `message.channel.id` and `message.content`. -/
structure Message where
  id : Nat
  author_id : Nat
  channel_id : Nat
  content : String
deriving DecidableEq, Repr

/-- The mutable registry owned by the RunFeature instance (source lines
21-23): `terminal_sessions` is the `user_id -> session` dict (modelled as
an association list in insertion order), `first_command_processed` and
`ssh_message_ids` are the two tracking sets (modelled as duplicate-free
lists in insertion order; for `ssh_message_ids` the *iteration* order of
the underlying Python set is supplied separately where the code iterates
it, since CPython does not iterate sets in insertion order). -/
structure FeatureState where
  terminal_sessions : List (String × Session)
  first_command_processed : List String
  ssh_message_ids : List Nat
deriving DecidableEq, Repr

/-- Dict lookup `self.terminal_sessions.get(user_id)` / membership test. -/
def FeatureState.find (st : FeatureState) (user_id : String) : Option Session :=
  (st.terminal_sessions.find? (fun p => p.1 == user_id)).map (fun p => p.2)

/-- Dict assignment `self.terminal_sessions[user_id] = session` (also models
in-place mutation of the stored session dict, which Python aliases). -/
def FeatureState.setSession (st : FeatureState) (user_id : String) (s : Session) :
    FeatureState :=
  { st with terminal_sessions :=
      st.terminal_sessions.filter (fun p => p.1 != user_id) ++ [(user_id, s)] }

/-- Config consumed by the feature: `allowed_commands` and `timeout`
(`self.feature_config.get("timeout", 30)` resolved to its value). -/
structure Config where
  allowed_commands : List String
  timeout : Nat
deriving DecidableEq, Repr

/-! ## The feature's functions, translated line by line -/

/-- Model of `add_ssh_message_id` (source lines 46-53).  `iter` is
`list(self.ssh_message_ids)` taken after the `add`: a listing of the set's
elements in the iteration order CPython happens to produce (hash-table
order, *not* insertion order).  The code drops every element of
`list(...)[:-50]` from the set once its size exceeds 50. -/
def add_ssh_message_id (ids : List Nat) (message_id : Nat) (iter : List Nat) :
    List Nat :=
  let ids1 := if ids.contains message_id then ids else ids ++ [message_id]
  if ids1.length > 50 then
    let old_ids := iter.take (iter.length - 50)
    ids1.filter (fun i => !(old_ids.contains i))
  else ids1

/-- Model of `get_bash_prompt` (source lines 55-62). -/
def get_bash_prompt (env : Env) (username hostname cwd : String) : String :=
  let home := pyExpanduser env.home "~"
  let cwd1 := if pyStartswith cwd home then "~" ++ cwd.drop home.length else cwd
  "[" ++ username ++ "@" ++ hostname ++ " " ++ cwd1 ++ "]$ "

/-- Model of `end_terminal_session` (source lines 110-132).  The attempt to edit the
terminal message to a "Session Ended" banner is wrapped in a bare
`except: pass` inside `except Exception`, so it never affects control flow
or the registry; the entry is then deleted and the user discarded from
`first_command_processed` unconditionally. -/
def end_terminal_session (st : FeatureState) (user_id : String) : FeatureState :=
  if (st.find user_id).isSome then
    { st with
      terminal_sessions := st.terminal_sessions.filter (fun p => p.1 != user_id),
      first_command_processed :=
        st.first_command_processed.filter (fun x => x != user_id) }
  else st

/-- Outcome of `start_terminal_session`: `result = some b` models
`return b`; `result = none` models an exception escaping to the caller
(possible only when the error-notice send in the handler itself raises). -/
structure StartResult where
  result : Option Bool
  st : FeatureState
deriving Repr

/-- Model of `start_terminal_session` (source lines 64-108).  Note the order of
operations in the `try` block: the session dict is stored in
`self.terminal_sessions` (line 81) *before* the introductory reply is sent
(line 91); the `except Exception` handler sends an error notice and
returns `False` without removing the stored session. -/
def start_terminal_session (env : Env) (st : FeatureState) (msg : Message) :
    StartResult :=
  let user_id := toString msg.author_id
  let st0 := if (st.find user_id).isSome then end_terminal_session st user_id else st
  let session : Session :=
    { username := env.userName, hostname := env.hostName, cwd := env.getcwd,
      channel_id := msg.channel_id, created_at := env.now, message_id := none }
  let st1 := st0.setSession user_id session
  match env.reply_result with
  | .ok mid =>
    { result := some true,
      st := st1.setSession user_id { session with message_id := some mid } }
  | .error _ =>
    match env.notice_send_result with
    | .ok _ => { result := some false, st := st1 }
    | .error _ => { result := none, st := st1 }

/-- Target-directory resolution inside `handle_cd_command` (source lines
198-215): parse `cd [arg]`, expand a leading `~`, resolve relative paths
against the session's `cwd`, then `os.path.abspath`. -/
def resolveCdTarget (env : Env) (command : String) (cwd : String) : String :=
  let parts := pySplitMax1 (pyStrip command)
  let target0 :=
    match parts with
    | [_, arg] => arg
    | _ => pyExpanduser env.home "~"
  let target1 := if pyStartswith target0 "~" then pyExpanduser env.home target0
                 else target0
  let target2 := if !(pyIsAbs target1) then pyJoin cwd target1 else target1
  pyAbspath env.getcwd target2

/-- Model of `handle_cd_command` (source lines 195-225).  Nothing in the body can
raise in this model, so the `except Exception` arm (line 224) is
unreachable.  Returns the output text and the (possibly `cwd`-mutated)
session. -/
def handle_cd_command (env : Env) (command : String) (session : Session) :
    String × Session :=
  let target_dir := resolveCdTarget env command session.cwd
  if env.isdir target_dir then ("", { session with cwd := target_dir })
  else ("bash: cd: " ++ target_dir ++ ": No such file or directory", session)

/-- The allow-list gate at the top of `execute_command` (source lines
140-144): when `allowed_commands` is non-empty and does not contain `"*"`,
a command whose first whitespace token is not listed is denied; returns
the offending token, or `none` when the command passes the gate (including
when the command has no tokens at all). -/
def allowDenied (cfg : Config) (command : String) : Option String :=
  if !cfg.allowed_commands.isEmpty && !(cfg.allowed_commands.contains "*") then
    match pySplit command with
    | [] => none
    | t :: _ => if cfg.allowed_commands.contains t then none else some t
  else none

/-- Result of `execute_command`: the returned output string, the session as
left by the call (only the `cd` branch mutates it), and the
`subprocess.run` invocation performed, if any, as (command line, cwd). -/
structure ExecResult where
  output : String
  session : Session
  spawnCall : Option (String × String)
deriving DecidableEq, Repr

/-- Model of `execute_command` (source lines 134-193), in the source's order: the
allow-list gate, then the `exit` special case, then the
`command.strip().startswith('cd ')` special case, and otherwise a shell
spawn in `session['cwd']` whose stdout/stderr/timeout/exception handling
follows lines 166-193. -/
def execute_command (cfg : Config) (env : Env) (command : String)
    (session : Session) : ExecResult :=
  match allowDenied cfg command with
  | some t =>
    { output := "❌ Command `" ++ t ++ "` is not allowed!",
      session := session, spawnCall := none }
  | none =>
    if pyLower (pyStrip command) = "exit" then
      { output := "exit", session := session, spawnCall := none }
    else if pyStartswith (pyStrip command) "cd " then
      let r := handle_cd_command env command session
      { output := r.1, session := r.2, spawnCall := none }
    else
      let call := some (command, session.cwd)
      match env.spawn command session.cwd with
      | .completed rc stdout stderr =>
        if rc = 0 then
          let out := pyStrip stdout
          if out = "" then { output := "", session := session, spawnCall := call }
          else
            { output := String.mk (stripAnsiAux out.data),
              session := session, spawnCall := call }
        else
          let eout := pyStrip stderr
          if eout = "" then
            { output := "Command failed with exit code " ++ toString rc,
              session := session, spawnCall := call }
          else
            { output := "❌ " ++ eout, session := session, spawnCall := call }
      | .timedOut =>
        { output := "❌ Command timed out after " ++ toString cfg.timeout
            ++ " seconds",
          session := session, spawnCall := call }
      | .failed m =>
        { output := "❌ Error executing command: " ++ m,
          session := session, spawnCall := call }

/-- The terminal-message update step of `handle_terminal_input` (source
lines 276-287): edit the stored terminal message in place; on a
`discord.NotFound`/`discord.HTTPException` failure, send a fresh message
and repoint the session at it; a failure of that send is swallowed only if
it is a `discord.HTTPException`.  Returns `none` when an exception escapes
this block (to be caught by the function's outer `except Exception`). -/
def handle_render (env : Env) (st1 : FeatureState) (user_id : String)
    (session1 : Session) (content : String) : Option FeatureState :=
  match session1.message_id with
  | none => some st1
  | some _ =>
    match env.edit_result with
    | none => some st1
    | some e =>
      if isDiscordErr e then
        match env.fallback_send with
        | .ok newId =>
          some (st1.setSession user_id { session1 with message_id := some newId })
        | .error e2 => if isDiscordErr e2 then some st1 else none
      else none

/-- Result of `handle_terminal_input`: the returned boolean, the registry
afterwards, and whether `message.delete()` was invoked. -/
structure HandleResult where
  handled : Bool
  st : FeatureState
  deleteAttempted : Bool
deriving Repr

/-- The deletion-policy tail of `handle_terminal_input` (source lines
289-303): delete the triggering message unless this is the session's first
processed command or its text is `exit`; afterwards mark the user's first
command as processed.  A non-`discord.HTTPException` failure of the delete
escapes to the outer `except Exception`, which returns `False`. -/
def handle_delete_and_mark (env : Env) (st2 : FeatureState)
    (user_id command : String) : HandleResult :=
  let is_first := !(st2.first_command_processed.contains user_id)
  let is_exit := pyLower (pyStrip command) == "exit"
  if !is_first && !is_exit then
    match env.delete_result with
    | some e =>
      if isDiscordErr e then { handled := true, st := st2, deleteAttempted := true }
      else { handled := false, st := st2, deleteAttempted := true }
    | none => { handled := true, st := st2, deleteAttempted := true }
  else
    let st3 :=
      if is_first then
        { st2 with first_command_processed :=
            st2.first_command_processed ++ [user_id] }
      else st2
    { handled := true, st := st3, deleteAttempted := false }

/-- Model of `handle_terminal_input` (source lines 227-307).  The duplicated
suppression and session-existence checks of lines 243-253 are kept; the
in-place mutations Python performs on the shared session dict are modelled
by writing the session returned by `execute_command` back into the
registry.  An exception escaping the message-update or message-delete
steps is caught by the outer `except Exception` (line 305), which logs and
returns `False`. -/
def handle_terminal_input (cfg : Config) (env : Env) (st : FeatureState)
    (msg : Message) : HandleResult :=
  let user_id := toString msg.author_id
  match st.find user_id with
  | none => { handled := false, st := st, deleteAttempted := false }
  | some _ =>
    if st.ssh_message_ids.contains msg.id then
      { handled := true, st := st, deleteAttempted := false }
    else
      let command := msg.content
      if st.ssh_message_ids.contains msg.id then
        { handled := true, st := st, deleteAttempted := false }
      else
        match st.find user_id with
        | none => { handled := false, st := st, deleteAttempted := false }
        | some session =>
          let prompt :=
            get_bash_prompt env session.username session.hostname session.cwd
          let terminal_content0 :=
            "**🖥️ Terminal**\n```\n" ++ prompt ++ command ++ "\n"
          let res := execute_command cfg env command session
          let st1 := st.setSession user_id res.session
          if res.output = "exit" then
            { handled := true, st := end_terminal_session st1 user_id,
              deleteAttempted := false }
          else
            let tc1 := if res.output ≠ "" then terminal_content0 ++ res.output ++ "\n"
                       else terminal_content0
            let new_prompt := get_bash_prompt env res.session.username
              res.session.hostname res.session.cwd
            let terminal_content := tc1 ++ new_prompt ++ "```"
            match handle_render env st1 user_id res.session terminal_content with
            | none => { handled := false, st := st1, deleteAttempted := false }
            | some st2 => handle_delete_and_mark env st2 user_id command

/-! ## Registry lemmas -/

/-- After storing a session for a user, looking that user up finds it. -/
lemma find_setSession_self (st : FeatureState) (u : String) (s : Session) :
    (st.setSession u s).find u = some s := by
  unfold FeatureState.setSession FeatureState.find
  rw [List.find?_append]
  have hnone : (st.terminal_sessions.filter (fun p => p.1 != u)).find?
      (fun p => p.1 == u) = none := by
    refine List.find?_eq_none.mpr ?_
    intro x hx
    have := (List.mem_filter.mp hx).2
    simp only [bne_iff_ne, ne_eq] at this
    simp [this]
  rw [hnone]
  simp

/-- Ending a session makes the lookup for that user come back absent,
whether or not a session existed. -/
lemma find_end_none (st : FeatureState) (u : String) :
    (end_terminal_session st u).find u = none := by
  unfold end_terminal_session
  by_cases h : (st.find u).isSome
  · simp only [h, if_true]
    unfold FeatureState.find
    have hnone : (st.terminal_sessions.filter (fun p => p.1 != u)).find?
        (fun p => p.1 == u) = none := by
      refine List.find?_eq_none.mpr ?_
      intro x hx
      have := (List.mem_filter.mp hx).2
      simp only [bne_iff_ne, ne_eq] at this
      simp [this]
    simp [hnone]
  · simp only [h, if_false]
    simpa using Option.not_isSome_iff_eq_none.mp h

/-- Ending an existing session clears the user from
`first_command_processed`. -/
lemma end_first_cleared (st : FeatureState) (u : String)
    (h : (st.find u).isSome) :
    (end_terminal_session st u).first_command_processed.contains u = false := by
  unfold end_terminal_session
  simp only [h, if_true]
  by_contra hc
  have hmem : u ∈ st.first_command_processed.filter (fun x => x != u) := by
    have := Bool.of_not_eq_false hc
    exact List.elem_iff.mp this
  have := (List.mem_filter.mp hmem).2
  simp at this

/-- Storing a session (`setSession`) leaves `first_command_processed` untouched. -/
lemma setSession_first (st : FeatureState) (u : String) (s : Session) :
    (st.setSession u s).first_command_processed = st.first_command_processed := rfl

/-! ## Concrete fixtures used by witnesses and counterexamples -/

/-- A host environment in which every transport operation succeeds, the
filesystem has `/tmp` and `/root` as directories, and every spawned
command prints `hi`. -/
def envOk : Env :=
  { home := "/root", getcwd := "/root", userName := "pi", hostName := "host",
    now := 0, isdir := fun s => s == "/tmp" || s == "/root",
    spawn := fun _ _ => .completed 0 "hi\n" "",
    reply_result := .ok 11, notice_send_result := .ok 12,
    edit_result := none, fallback_send := .ok 13, delete_result := none }

/-- A started session for user `7` whose terminal message is message 11. -/
def sessionBase : Session :=
  { username := "pi", hostname := "host", cwd := "/root", channel_id := 1,
    created_at := 0, message_id := some 11 }

/-- Registry holding only `sessionBase` for user `7`. -/
def stOne : FeatureState :=
  { terminal_sessions := [("7", sessionBase)], first_command_processed := [],
    ssh_message_ids := [] }

/-- Empty registry. -/
def stEmpty : FeatureState :=
  { terminal_sessions := [], first_command_processed := [], ssh_message_ids := [] }

/-- Config with no allow-list restriction. -/
def cfgFree : Config := { allowed_commands := [], timeout := 30 }

/-! ## C1 — start failure and the registry -/

/-- C1 (amended): if sending the introductory terminal message fails (and
the error notice itself sends), `start_terminal_session` returns `False`
to the caller, but the Session seeded before the send attempt *remains
registered*: the Registry lookup for that user returns the fresh session
(with no terminal message reference), not absent. -/
theorem C1_start_failure_keeps_session (env : Env) (st : FeatureState)
    (msg : Message) (e : PyErr) (n : Nat)
    (hreply : env.reply_result = .error e)
    (hnotice : env.notice_send_result = .ok n) :
    (start_terminal_session env st msg).result = some false ∧
    (start_terminal_session env st msg).st.find (toString msg.author_id) =
      some { username := env.userName, hostname := env.hostName,
             cwd := env.getcwd, channel_id := msg.channel_id,
             created_at := env.now, message_id := none } := by
  unfold start_terminal_session
  rw [hreply, hnotice]
  exact ⟨rfl, find_setSession_self _ _ _⟩

/-- C1 witness: the amended statement at a concrete input — an empty
registry, a start request from user `7`, and a transport whose reply
raises an HTTP error. -/
theorem C1_start_failure_keeps_session_witness :
    (start_terminal_session { envOk with reply_result := .error .httpError }
        stEmpty { id := 5, author_id := 7, channel_id := 1, content := "!ssh" }).result
      = some false ∧
    (start_terminal_session { envOk with reply_result := .error .httpError }
        stEmpty { id := 5, author_id := 7, channel_id := 1, content := "!ssh" }).st.find
        (toString (7 : Nat))
      = some { username := "pi", hostname := "host", cwd := "/root",
               channel_id := 1, created_at := 0, message_id := none } :=
  C1_start_failure_keeps_session _ _ _ .httpError 12 rfl rfl

/-- C1 counterexample: at the same concrete input the claim as stated is
false — the call reports failure, yet the Registry lookup for user `7`
afterwards is *not* absent. -/
theorem C1_counterexample_registered_after_failure :
    (start_terminal_session { envOk with reply_result := .error .httpError }
        stEmpty { id := 5, author_id := 7, channel_id := 1, content := "!ssh" }).result
      = some false ∧
    ((start_terminal_session { envOk with reply_result := .error .httpError }
        stEmpty { id := 5, author_id := 7, channel_id := 1, content := "!ssh" }).st.find
        "7").isSome = true :=
  ⟨rfl, rfl⟩

/-! ## C3 — the `exit` sentinel -/

/-- C3 (amended): for every command line whose trimmed text equals `exit`
case-insensitively *and which passes the allow-list gate* (the gate runs
first in `execute_command`), the executor returns the sentinel `"exit"`,
mutates nothing, and spawns no process. -/
theorem C3_exit_sentinel_when_allowed (cfg : Config) (env : Env)
    (command : String) (session : Session)
    (hallow : allowDenied cfg command = none)
    (hexit : pyLower (pyStrip command) = "exit") :
    execute_command cfg env command session =
      { output := "exit", session := session, spawnCall := none } := by
  unfold execute_command
  rw [hallow]
  simp [hexit]

/-- C3 witness: the amended statement at the concrete command `"  ExIt "`
with an empty allow-list. -/
theorem C3_exit_sentinel_witness :
    execute_command cfgFree envOk "  ExIt " sessionBase =
      { output := "exit", session := sessionBase, spawnCall := none } :=
  C3_exit_sentinel_when_allowed cfgFree envOk "  ExIt " sessionBase rfl rfl

/-- C3 counterexample: with the configured allow-list `["echo"]` the
trimmed command `exit` does *not* yield the sentinel — the allow-list
gate, which runs before the exit check, denies it. -/
theorem C3_counterexample_allowlist_blocks_exit :
    (execute_command { allowed_commands := ["echo"], timeout := 30 } envOk
        "exit" sessionBase).output = "❌ Command `exit` is not allowed!" ∧
    (execute_command { allowed_commands := ["echo"], timeout := 30 } envOk
        "exit" sessionBase).output ≠ "exit" :=
  ⟨rfl, by decide⟩

/-! ## C4 — the `cd` special case and the bare `cd` bug -/

/-- C4: the directory-change branch requires the trimmed command to start
with the three characters `cd` + space (`command.strip().startswith('cd ')`),
so the bare command `cd` is *not* special-cased: it is handed to
`subprocess.run` as a shell command (first conjunct), while `cd /tmp`
takes the branch, spawns nothing and moves the session to `/tmp`
(remaining conjuncts).  This contradicts both the claim and
`handle_cd_command`'s own no-argument branch (source lines 200-202),
which is unreachable from `execute_command`. -/
theorem C4_bare_cd_spawns_process :
    (execute_command cfgFree envOk "cd" sessionBase).spawnCall
      = some ("cd", "/root") ∧
    (execute_command cfgFree envOk "cd /tmp" sessionBase).spawnCall = none ∧
    (execute_command cfgFree envOk "cd /tmp" sessionBase).session.cwd = "/tmp" :=
  ⟨by decide, by decide, by decide⟩

/-! ## C5 — allow-list denial -/

/-- C5: when a non-empty allow-list without the wildcard is configured and
the command's first whitespace token is not in it, `execute_command`
spawns no process, returns the session unchanged, and returns a denial
message containing that token. -/
theorem C5_allowlist_denial (cfg : Config) (env : Env) (command : String)
    (session : Session) (t : String) (rest : List String)
    (hne : cfg.allowed_commands.isEmpty = false)
    (hstar : cfg.allowed_commands.contains "*" = false)
    (hsplit : pySplit command = t :: rest)
    (hmem : cfg.allowed_commands.contains t = false) :
    (execute_command cfg env command session).output =
      "❌ Command `" ++ t ++ "` is not allowed!" ∧
    (∃ a b, (execute_command cfg env command session).output = a ++ t ++ b) ∧
    (execute_command cfg env command session).session = session ∧
    (execute_command cfg env command session).spawnCall = none := by
  have hd : allowDenied cfg command = some t := by
    unfold allowDenied
    simp only [hsplit, hne, hstar, hmem]
    rfl
  unfold execute_command
  rw [hd]
  exact ⟨rfl, ⟨"❌ Command `", "` is not allowed!", rfl⟩, rfl, rfl⟩

/-- C5 witness: the spec's own scenario — allow-list `["echo","cd"]`,
command `ls -la` — denied with a message mentioning `ls`, no spawn, no
session change. -/
theorem C5_allowlist_denial_witness :
    (execute_command { allowed_commands := ["echo", "cd"], timeout := 30 }
        envOk "ls -la" sessionBase).output = "❌ Command `ls` is not allowed!" ∧
    (∃ a b, (execute_command { allowed_commands := ["echo", "cd"], timeout := 30 }
        envOk "ls -la" sessionBase).output = a ++ "ls" ++ b) ∧
    (execute_command { allowed_commands := ["echo", "cd"], timeout := 30 }
        envOk "ls -la" sessionBase).session = sessionBase ∧
    (execute_command { allowed_commands := ["echo", "cd"], timeout := 30 }
        envOk "ls -la" sessionBase).spawnCall = none :=
  C5_allowlist_denial _ envOk "ls -la" sessionBase "ls" ["-la"] (by decide) (by decide)
    (by decide) (by decide)

/-! ## C10 — whitespace-only commands bypass the allow-list -/

/-- A command with no whitespace tokens consists entirely of whitespace:
splitting it to `[]` forces the stripped command to be empty. -/
lemma pyStrip_eq_empty_of_split_nil (command : String)
    (hsplit : pySplit command = []) : pyStrip command = "" := by
  unfold pySplit at hsplit
  have key : ∀ fuel l, l.length ≤ fuel → pySplitFuel fuel l = [] →
      l.dropWhile isPySpace = [] := by
    intro fuel
    induction fuel with
    | zero =>
      intro l hl _
      have : l = [] := List.length_eq_zero.mp (Nat.le_zero.mp hl)
      simp [this]
    | succ n ih =>
      intro l hl h
      match l with
      | [] => simp
      | c :: cs =>
        simp only [pySplitFuel] at h
        by_cases hsp : isPySpace c
        · simp only [hsp, if_true] at h
          have := ih cs (by simpa using Nat.le_of_succ_le_succ hl) h
          simp [List.dropWhile, hsp, this]
        · simp [hsp] at h
  have hdrop := key _ _ (Nat.le_refl _) hsplit
  unfold pyStrip
  rw [hdrop]
  rfl

/-- C10: for every command line whose whitespace-split token list is empty,
`execute_command` skips the allow-list gate — whatever allow-list is
configured — and passes the command line verbatim to the shell with the
session's working directory. -/
theorem C10_whitespace_command_spawns (cfg : Config) (env : Env)
    (command : String) (session : Session)
    (hsplit : pySplit command = []) :
    (execute_command cfg env command session).spawnCall
      = some (command, session.cwd) := by
  have hstrip : pyStrip command = "" := pyStrip_eq_empty_of_split_nil command hsplit
  have hallow : allowDenied cfg command = none := by
    unfold allowDenied
    rw [hsplit]
    simp
  unfold execute_command
  rw [hallow, hstrip]
  rw [if_neg (by decide), if_neg (by decide)]
  cases env.spawn command session.cwd with
  | completed rc stdout stderr =>
    simp only
    split
    · split <;> rfl
    · split <;> rfl
  | timedOut => rfl
  | failed m => rfl

/-- C10 witness: the command `"   "` with the restrictive allow-list
`["echo"]` is still handed to the shell. -/
theorem C10_whitespace_command_spawns_witness :
    (execute_command { allowed_commands := ["echo"], timeout := 30 } envOk
        "   " sessionBase).spawnCall = some ("   ", "/root") :=
  C10_whitespace_command_spawns _ envOk "   " sessionBase (by decide)

/-! ## C6 — `cd` target resolution and the two branches -/

/-- C6: for every session and cd command line, `handle_cd_command` resolves
the target against `session.cwd` (via `resolveCdTarget`, which performs the
home-shorthand expansion, relative-path join and normalization of source
lines 198-215); if the host reports the resolved path as a directory the
session's `cwd` becomes exactly that path and the output is empty,
otherwise the session is returned unchanged with the POSIX-style message
naming the resolved path. -/
theorem C6_cd_directory_branches (env : Env) (session : Session)
    (command : String) :
    (env.isdir (resolveCdTarget env command session.cwd) = true →
      handle_cd_command env command session =
        ("", { session with cwd := resolveCdTarget env command session.cwd })) ∧
    (env.isdir (resolveCdTarget env command session.cwd) = false →
      handle_cd_command env command session =
        ("bash: cd: " ++ resolveCdTarget env command session.cwd
            ++ ": No such file or directory", session)) := by
  constructor <;> intro h <;> simp [handle_cd_command, h]

/-- C6 witness: both branches at concrete inputs — `cd tmp` from `/root`
resolves to `/tmp` (an existing directory: `cwd` updated, empty output) and
`cd /nonexistent-xyz` produces the spec's exact scenario message with the
session unchanged. -/
theorem C6_cd_directory_branches_witness :
    handle_cd_command envOk "cd tmp" { sessionBase with cwd := "/" } =
      ("", { sessionBase with cwd := "/tmp" }) ∧
    handle_cd_command envOk "cd /nonexistent-xyz" sessionBase =
      ("bash: cd: /nonexistent-xyz: No such file or directory", sessionBase) :=
  ⟨(C6_cd_directory_branches envOk { sessionBase with cwd := "/" } "cd tmp").1
      (by decide),
   (C6_cd_directory_branches envOk sessionBase "cd /nonexistent-xyz").2
      (by decide)⟩

/-! ## Lemmas about the message-update and deletion steps -/

/-- When every failure the transport reports during the terminal-message
update is a `discord` transport error (the kind the source catches), the
update step never lets an exception escape, and it leaves
`first_command_processed` untouched. -/
lemma render_ok (env : Env) (st1 : FeatureState) (u : String) (s : Session)
    (c : String)
    (hedit : ∀ e, env.edit_result = some e → isDiscordErr e = true)
    (hsend : ∀ e, env.fallback_send = .error e → isDiscordErr e = true) :
    ∃ st2, handle_render env st1 u s c = some st2 ∧
      st2.first_command_processed = st1.first_command_processed := by
  unfold handle_render
  cases s.message_id with
  | none => exact ⟨st1, rfl, rfl⟩
  | some mid =>
    cases he : env.edit_result with
    | none => exact ⟨st1, rfl, rfl⟩
    | some e =>
      simp only [hedit e he, if_true]
      cases hf : env.fallback_send with
      | ok newId =>
        exact ⟨_, rfl, setSession_first st1 u { s with message_id := some newId }⟩
      | error e2 =>
        simp only [hsend e2 hf, if_true]
        exact ⟨st1, rfl, rfl⟩

/-- When the delete call can only fail with a `discord` transport error,
the deletion-policy tail reports the message as handled. -/
lemma dm_handled (env : Env) (st2 : FeatureState) (u cmd : String)
    (hdel : ∀ e, env.delete_result = some e → isDiscordErr e = true) :
    (handle_delete_and_mark env st2 u cmd).handled = true := by
  unfold handle_delete_and_mark
  by_cases hc : (!(!(st2.first_command_processed.contains u))
      && !(pyLower (pyStrip cmd) == "exit")) = true
  · simp only [hc, if_true]
    cases hd : env.delete_result with
    | none => rfl
    | some e => simp only [hdel e hd, if_true]
  · simp only [Bool.not_eq_true] at hc
    simp only [hc, Bool.false_eq_true, if_false]

/-- First command of a session: the deletion-policy tail never deletes the
message and records the user, regardless of the transport. -/
lemma dm_first (env : Env) (st2 : FeatureState) (u cmd : String)
    (hfirst : st2.first_command_processed.contains u = false) :
    handle_delete_and_mark env st2 u cmd =
      { handled := true,
        st := { st2 with first_command_processed :=
                  st2.first_command_processed ++ [u] },
        deleteAttempted := false } := by
  have hf : u ∉ st2.first_command_processed := by
    intro hm
    have h2 : st2.first_command_processed.contains u = true := List.elem_iff.mpr hm
    rw [hfirst] at h2
    simp at h2
  unfold handle_delete_and_mark
  simp [hfirst, hf]

/-- Subsequent command: the deletion-policy tail attempts the delete exactly
when the command's trimmed text is not `exit`, and never changes the
registry. -/
lemma dm_subsequent (env : Env) (st2 : FeatureState) (u cmd : String)
    (hfirst : st2.first_command_processed.contains u = true) :
    (handle_delete_and_mark env st2 u cmd).deleteAttempted
        = !(pyLower (pyStrip cmd) == "exit") ∧
    (handle_delete_and_mark env st2 u cmd).st = st2 := by
  have hm : u ∈ st2.first_command_processed := List.elem_iff.mp hfirst
  unfold handle_delete_and_mark
  by_cases hex : (pyLower (pyStrip cmd) == "exit") = true
  · simp [hfirst, hex, hm]
  · simp only [Bool.not_eq_true] at hex
    simp only [hfirst, hex]
    cases hd : env.delete_result with
    | none => simp
    | some e =>
      by_cases hde : isDiscordErr e = true
      · simp [hde]
      · simp only [Bool.not_eq_true] at hde
        simp [hde]

/-- A successful terminal-message update never changes
`first_command_processed`. -/
lemma render_first (env : Env) (st1 : FeatureState) (u : String) (s : Session)
    (c : String) (st2 : FeatureState)
    (h : handle_render env st1 u s c = some st2) :
    st2.first_command_processed = st1.first_command_processed := by
  unfold handle_render at h
  cases hm : s.message_id with
  | none =>
    simp only [hm] at h
    injection h with h2
    rw [← h2]
  | some mid =>
    simp only [hm] at h
    cases he : env.edit_result with
    | none =>
      simp only [he] at h
      injection h with h2
      rw [← h2]
    | some e =>
      simp only [he] at h
      by_cases hde : isDiscordErr e = true
      · simp only [hde, if_true] at h
        cases hf : env.fallback_send with
        | ok newId =>
          simp only [hf] at h
          injection h with h2
          rw [← h2]
          exact setSession_first st1 u _
        | error e2 =>
          simp only [hf] at h
          by_cases hde2 : isDiscordErr e2 = true
          · simp only [hde2, if_true] at h
            injection h with h2
            rw [← h2]
          · simp only [Bool.not_eq_true] at hde2
            simp only [hde2, Bool.false_eq_true, if_false] at h
            simp at h
      · simp only [Bool.not_eq_true] at hde
        simp only [hde, Bool.false_eq_true, if_false] at h
        simp at h

/-- Under transport-only failures the terminal-message update cannot raise,
i.e. `handle_render` cannot come back `none`. -/
lemma render_ne_none (env : Env) (st1 : FeatureState) (u : String) (s : Session)
    (c : String)
    (hedit : ∀ e, env.edit_result = some e → isDiscordErr e = true)
    (hsend : ∀ e, env.fallback_send = .error e → isDiscordErr e = true) :
    handle_render env st1 u s c ≠ none := by
  obtain ⟨st2, hr, _⟩ := render_ok env st1 u s c hedit hsend
  simp [hr]

/-! ## C2 — handled flag under internal failures -/

/-- C2 (amended): once an ACTIVE session is found and the message is not
suppressed, `handle_terminal_input` returns `true` *provided every internal
failure of message editing, fallback sending and message deletion is a
`discord` transport error* — exactly the kinds the source catches and logs.
(The original claim extends this to arbitrary internal errors, which the
outer `except Exception` handler instead converts to `return False`; see
the counterexample.) -/
theorem C2_handled_true_under_transport_errors (cfg : Config) (env : Env)
    (st : FeatureState) (msg : Message) (session : Session)
    (hfind : st.find (toString msg.author_id) = some session)
    (hsup : st.ssh_message_ids.contains msg.id = false)
    (hedit : ∀ e, env.edit_result = some e → isDiscordErr e = true)
    (hsend : ∀ e, env.fallback_send = .error e → isDiscordErr e = true)
    (hdel : ∀ e, env.delete_result = some e → isDiscordErr e = true) :
    (handle_terminal_input cfg env st msg).handled = true := by
  simp only [handle_terminal_input, hfind, hsup, Bool.false_eq_true, if_false]
  by_cases hout : (execute_command cfg env msg.content session).output = "exit"
  · rw [if_pos hout]
  · rw [if_neg hout]
    split
    · next heq => exact absurd heq (render_ne_none _ _ _ _ _ hedit hsend)
    · next st2 heq => exact dm_handled env st2 _ _ hdel

/-- C2 witness: the amended statement at a concrete input — an active
session for user `7`, an ordinary `ls` command, and a transport in which
the edit fails with `discord.NotFound` and the fallback send fails with a
generic `discord.HTTPException`: the call still reports the message as
handled. -/
theorem C2_handled_true_witness :
    (handle_terminal_input cfgFree
        { envOk with edit_result := some .notFound,
                     fallback_send := .error .httpError }
        stOne { id := 99, author_id := 7, channel_id := 1, content := "ls" }).handled
      = true :=
  C2_handled_true_under_transport_errors cfgFree
    { envOk with edit_result := some .notFound, fallback_send := .error .httpError }
    stOne { id := 99, author_id := 7, channel_id := 1, content := "ls" }
    sessionBase (by decide) (by decide)
    (by intro e he; cases he; rfl) (by intro e he; cases he; rfl)
    (by intro e he; cases he)

/-- C2 counterexample: with the same active, non-suppressed message, an
edit failure outside the `discord.HTTPException` family (e.g. a
connection-level error) escapes to the outer `except Exception` handler,
which returns `False` — the claim's "returns true in every case where
rendering raises" is false on the code. -/
theorem C2_counterexample_other_error_returns_false :
    (handle_terminal_input cfgFree { envOk with edit_result := some .otherError }
        stOne { id := 99, author_id := 7, channel_id := 1, content := "ls" }).handled
      = false := by
  decide

/-! ## C7 — message-deletion policy -/

/-- C7 (amended): for an active, non-suppressed message whose execution
does not produce the exit sentinel, and a transport whose edit/send
failures are `discord` transport errors: if this is the session's first
processed command the message is not deleted and the user is recorded in
`first_command_processed`; on a subsequent command the delete is attempted
exactly when the command's trimmed text is not `exit`.  (The original
claim also asserted recording for a first command that *ends* the session
— the executor returning the exit sentinel — which the code does not do;
see the counterexample.) -/
theorem C7_deletion_policy (cfg : Config) (env : Env) (st : FeatureState)
    (msg : Message) (session : Session)
    (hfind : st.find (toString msg.author_id) = some session)
    (hsup : st.ssh_message_ids.contains msg.id = false)
    (hout : (execute_command cfg env msg.content session).output ≠ "exit")
    (hedit : ∀ e, env.edit_result = some e → isDiscordErr e = true)
    (hsend : ∀ e, env.fallback_send = .error e → isDiscordErr e = true) :
    (st.first_command_processed.contains (toString msg.author_id) = false →
      (handle_terminal_input cfg env st msg).deleteAttempted = false ∧
      (handle_terminal_input cfg env st msg).st.first_command_processed.contains
        (toString msg.author_id) = true) ∧
    (st.first_command_processed.contains (toString msg.author_id) = true →
      (handle_terminal_input cfg env st msg).deleteAttempted
        = !(pyLower (pyStrip msg.content) == "exit")) := by
  simp only [handle_terminal_input, hfind, hsup, Bool.false_eq_true, if_false]
  rw [if_neg hout]
  split
  · next heq => exact absurd heq (render_ne_none _ _ _ _ _ hedit hsend)
  · next st2 heq =>
    have hpres := render_first _ _ _ _ _ _ heq
    constructor
    · intro hf
      have hf2 : st2.first_command_processed.contains (toString msg.author_id)
          = false := by
        rw [hpres]
        exact hf
      rw [dm_first env st2 (toString msg.author_id) msg.content hf2]
      refine ⟨rfl, ?_⟩
      have : (toString msg.author_id) ∈
          st2.first_command_processed ++ [toString msg.author_id] := by simp
      exact List.elem_iff.mpr this
    · intro hf
      have hf2 : st2.first_command_processed.contains (toString msg.author_id)
          = true := by
        rw [hpres]
        exact hf
      exact (dm_subsequent env st2 (toString msg.author_id) msg.content hf2).1

/-- C7 witness: the amended statement exercised at concrete inputs via the
theorem — a fresh session for user `7` issuing `ls` (first command: no
delete, user recorded), and the same session with the first command already
seen (subsequent `ls`: delete attempted). -/
theorem C7_deletion_policy_witness :
    ((handle_terminal_input cfgFree envOk stOne
        { id := 99, author_id := 7, channel_id := 1, content := "ls" }).deleteAttempted
      = false ∧
     (handle_terminal_input cfgFree envOk stOne
        { id := 99, author_id := 7, channel_id := 1, content := "ls" }).st.first_command_processed.contains
        (toString (7 : Nat)) = true) ∧
    (handle_terminal_input cfgFree envOk
        { stOne with first_command_processed := ["7"] }
        { id := 99, author_id := 7, channel_id := 1, content := "ls" }).deleteAttempted
      = true :=
  ⟨(C7_deletion_policy cfgFree envOk stOne
      { id := 99, author_id := 7, channel_id := 1, content := "ls" } sessionBase
      (by decide) (by decide) (by decide)
      (by intro e he; cases he) (by intro e he; cases he)).1 (by decide),
   (C7_deletion_policy cfgFree envOk { stOne with first_command_processed := ["7"] }
      { id := 99, author_id := 7, channel_id := 1, content := "ls" } sessionBase
      (by decide) (by decide) (by decide)
      (by intro e he; cases he) (by intro e he; cases he)).2 (by decide)⟩

/-- C7 counterexample: a fresh session for user `7` whose *first* command is
`exit` — the message is (correctly, per the claim) not deleted, but the
user is *not* recorded in `first_command_processed` afterwards: the exit
path returns before the recording step and the session teardown clears the
set, so the claim's "the user is then recorded in first_command_seen" is
false on the code. -/
theorem C7_counterexample_exit_first_not_recorded :
    (handle_terminal_input cfgFree envOk stOne
        { id := 99, author_id := 7, channel_id := 1, content := "exit" }).deleteAttempted
      = false ∧
    (handle_terminal_input cfgFree envOk stOne
        { id := 99, author_id := 7, channel_id := 1, content := "exit" }).st.first_command_processed.contains
        "7" = false := by
  decide

/-! ## C8 — `exit` ends the session -/

/-- C8: for an active, non-suppressed message for which the executor
returns the exit sentinel, `handle_terminal_input` reports the message as
handled, the Registry lookup for the user afterwards is absent, the user
is cleared from `first_command_processed`, and the triggering message is
never deleted. -/
theorem C8_exit_ends_session (cfg : Config) (env : Env) (st : FeatureState)
    (msg : Message) (session : Session)
    (hfind : st.find (toString msg.author_id) = some session)
    (hsup : st.ssh_message_ids.contains msg.id = false)
    (hout : (execute_command cfg env msg.content session).output = "exit") :
    (handle_terminal_input cfg env st msg).handled = true ∧
    (handle_terminal_input cfg env st msg).st.find (toString msg.author_id)
      = none ∧
    (handle_terminal_input cfg env st msg).st.first_command_processed.contains
      (toString msg.author_id) = false ∧
    (handle_terminal_input cfg env st msg).deleteAttempted = false := by
  simp only [handle_terminal_input, hfind, hsup, Bool.false_eq_true, if_false]
  rw [if_pos hout]
  refine ⟨rfl, find_end_none _ _, ?_, rfl⟩
  apply end_first_cleared
  rw [find_setSession_self]
  rfl

/-- C8 witness: the session for user `7` (first command already seen) gets
`" EXIT "`; the executor returns the sentinel, the session is gone, the
user is cleared from the first-command set, and no delete is attempted. -/
theorem C8_exit_ends_session_witness :
    (handle_terminal_input cfgFree envOk
        { stOne with first_command_processed := ["7"] }
        { id := 99, author_id := 7, channel_id := 1, content := " EXIT " }).handled
      = true ∧
    (handle_terminal_input cfgFree envOk
        { stOne with first_command_processed := ["7"] }
        { id := 99, author_id := 7, channel_id := 1, content := " EXIT " }).st.find
        (toString (7 : Nat)) = none ∧
    (handle_terminal_input cfgFree envOk
        { stOne with first_command_processed := ["7"] }
        { id := 99, author_id := 7, channel_id := 1, content := " EXIT " }).st.first_command_processed.contains
        (toString (7 : Nat)) = false ∧
    (handle_terminal_input cfgFree envOk
        { stOne with first_command_processed := ["7"] }
        { id := 99, author_id := 7, channel_id := 1, content := " EXIT " }).deleteAttempted
      = false :=
  C8_exit_ends_session cfgFree envOk
    { stOne with first_command_processed := ["7"] }
    { id := 99, author_id := 7, channel_id := 1, content := " EXIT " }
    sessionBase (by decide) (by decide) (by decide)

/-! ## C9 — the suppressed-message-id bound and eviction order -/

/-- The size bound half of the suppression-set policy holds for *every*
iteration order the Python set could produce: whenever `iter` is the
listing `list(self.ssh_message_ids)` of the set's elements after the add,
the set retains at most 50 ids. -/
lemma filter_prefix_false_length_le (pre suf : List Nat) (p : Nat → Bool)
    (h : ∀ x ∈ pre, p x = false) :
    ((pre ++ suf).filter p).length ≤ suf.length := by
  rw [List.filter_append]
  have hnil : pre.filter p = [] := by
    refine List.filter_eq_nil_iff.mpr ?_
    intro x hx
    simp [h x hx]
  rw [hnil, List.nil_append]
  exact List.length_filter_le _ _

lemma add_ssh_message_id_length_le (ids : List Nat) (message_id : Nat)
    (iter : List Nat)
    (hperm : iter.Perm
      (if ids.contains message_id then ids else ids ++ [message_id])) :
    (add_ssh_message_id ids message_id iter).length ≤ 50 := by
  unfold add_ssh_message_id
  dsimp only
  by_cases hgt :
      (if ids.contains message_id then ids else ids ++ [message_id]).length > 50
  · rw [if_pos hgt]
    have hperm2 := (hperm.symm).filter
      (fun i => !((iter.take (iter.length - 50)).contains i))
    rw [hperm2.length_eq]
    have key := filter_prefix_false_length_le (iter.take (iter.length - 50))
      (iter.drop (iter.length - 50))
      (fun i => !((iter.take (iter.length - 50)).contains i))
      (by
        intro x hx
        simpa using hx)
    rw [List.take_append_drop] at key
    calc (iter.filter
            (fun i => !((iter.take (iter.length - 50)).contains i))).length
        ≤ (iter.drop (iter.length - 50)).length := key
      _ = iter.length - (iter.length - 50) := List.length_drop _ _
      _ ≤ 50 := by omega
  · rw [if_neg hgt]
    omega

set_option maxHeartbeats 1000000 in
/-- C9: `ssh_message_ids` is a Python `set`, and `list(set)[:-50]` drops
elements in the set's hash-table *iteration* order, not insertion order.
With ids 1..50 inserted oldest-first and then 256 added (CPython iterates
this set as `[256, 1, ..., 50]`, since `256 & 127 = 0` places 256 in the
first bucket), the element evicted is the newly inserted 256 while the
oldest id 1 is retained — the opposite of the claimed oldest-first
eviction — though the 50-entry bound itself holds. -/
theorem C9_newest_id_evicted :
    (add_ssh_message_id (List.range' 1 50) 256 (256 :: List.range' 1 50)).length
      = 50 ∧
    (add_ssh_message_id (List.range' 1 50) 256
        (256 :: List.range' 1 50)).contains 256 = false ∧
    (add_ssh_message_id (List.range' 1 50) 256
        (256 :: List.range' 1 50)).contains 1 = true := by
  decide
